import Mathlib

/-!
Shallow embedding of `src/scripts/h5peditor-semantic-structure.js`
(`H5PEditor.SemanticStructure`), the field-wrapper base class of the
h5p editor library, together with theorems checking the specification's
claims about it.

JavaScript values relevant to the claims are embedded explicitly:
the `label` property of a field descriptor is `undefined`, the literal
`0` (the suppress marker) or a string; the `widgets` property is
`undefined`, an array of `{name, label}` descriptors, or some non-array
value.  The never-assigned instance property `self.default` read at
line 120 of the source evaluates to `undefined` in JavaScript, which the
embedding renders as `none` in the resolved candidate list (entries are
`Option WidgetDesc`).  Thrown `TypeError`s become `Except.error`.  DOM
and widget-lifecycle effects are recorded as an explicit event trace.
-/

deriving instance DecidableEq for Except

namespace H5PEditor

/-- A `{name, label}` candidate entry of a field descriptor's `widgets`
array, and also the shape of the `defaultWidget` constructor argument. -/
structure WidgetDesc where
  name : String
  label : String
deriving DecidableEq

/-- The JavaScript value of a field descriptor's `label` property:
absent (`undefined`), the literal suppress marker `0`, or a string. -/
inductive LabelVal where
  | undefined : LabelVal
  | zero : LabelVal
  | str : String → LabelVal
deriving DecidableEq

/-- The JavaScript value of a field descriptor's `widgets` property:
absent (`undefined`), an array of candidate descriptors, or some value
that is not an array. -/
inductive WidgetsVal where
  | undefined : WidgetsVal
  | arr : List WidgetDesc → WidgetsVal
  | nonArray : WidgetsVal
deriving DecidableEq

/-- The field descriptor handed to the `SemanticStructure` constructor. -/
structure Field where
  name : String
  label : LabelVal
  description : Option String
  type : String
  widgets : WidgetsVal
deriving DecidableEq

/-- A thrown JavaScript error. -/
inductive JSError where
  | typeError : String → JSError
deriving DecidableEq

/-- The widget registry: the set of names `name` for which
`H5PEditor[name]` is defined.  The component only performs lookups. -/
def getWidget (reg : List String) (name : String) : Bool :=
  reg.contains name

/-- Embedding of `getValidWidgets` (source lines 100-124).  Entries of
the returned list are `Option WidgetDesc` because the empty-filter
fallback at line 120 pushes `self.default`, an instance property that is
never assigned and therefore `undefined` (`none`); declared candidates
that survive the filter are `some` entries. -/
def getValidWidgets (reg : List String) (field : Field)
    (defaultWidget : WidgetDesc) :
    Except JSError (List (Option WidgetDesc)) :=
  match field.widgets with
  | WidgetsVal.undefined =>
    -- No widgets specified, use default
    Except.ok [some defaultWidget]
  | WidgetsVal.nonArray =>
    Except.error (JSError.typeError "widgets must be an array")
  | WidgetsVal.arr ws =>
    -- keep candidates whose name resolves in the registry, in order
    let validWidgets := (ws.filter (fun w => getWidget reg w.name)).map some
    if validWidgets.isEmpty then
      -- `validWidgets.push(self.default)`: `self.default` is undefined
      Except.ok [none]
    else
      Except.ok validWidgets

/-- `self.label` (source line 25):
`field.label === undefined ? field.name : field.label`. -/
def selfLabelOf (field : Field) : LabelVal :=
  if field.label = LabelVal.undefined then LabelVal.str field.name
  else field.label

/-- The state a `SemanticStructure` instance holds after `init` ran:
the fields captured by the constructor's closure that the claims are
about.  The active widget instance is identified by the name it was
constructed from (`self.widget`); errors are the messages appended to
the `$errors` container. -/
structure WrapperState where
  selfLabel : LabelVal
  widgets : List (Option WidgetDesc)
  hasSelector : Bool
  labelElement : Option LabelVal
  description : Option String
  errors : List String
  widget : Option String
deriving DecidableEq

/-- Observable effects of the widget lifecycle and of `appendTo`,
recorded in order. -/
inductive Event where
  | removeWidget : String → Event
  | constructWidget : String → Event
  | triggerChangeWidget : Event
  | mountWidget : Event
  | appendErrors : Event
  | appendDescription : Event
  | appendHelpText : Event
  | appendSelector : Event
  | appendWrapper : Event
deriving DecidableEq

/-- Embedding of the constructor (lines 15-91, 219-221): computes
`self.label`, runs `init`, which resolves the widget list, decides
whether a selector is built (`widgets.length > 1`), and creates the
label element unless `field.label !== 0` fails.  No widget instance is
created here. -/
def construct (reg : List String) (field : Field)
    (defaultWidget : WidgetDesc) : Except JSError WrapperState :=
  match getValidWidgets reg field defaultWidget with
  | Except.error e => Except.error e
  | Except.ok ws =>
    Except.ok
      { selfLabel := selfLabelOf field
        widgets := ws
        hasSelector := decide (ws.length > 1)
        labelElement :=
          if field.label = LabelVal.zero then none
          else some (selfLabelOf field)
        description := field.description
        errors := []
        widget := none }

/-- Embedding of `changeWidget` (lines 143-161): remove the old widget
if one is active, look the new one up, construct it, trigger the
`changeWidget` event, mount it, and re-attach errors, description (when
present) and help text.  When the lookup fails, `new widget(self)` with
`widget === undefined` throws a `TypeError` after the old widget was
already removed; the trace produced up to that point is kept. -/
def changeWidget (reg : List String) (st : WrapperState) (name : String) :
    List Event × Except JSError WrapperState :=
  let tr0 : List Event :=
    match st.widget with
    | some old => [Event.removeWidget old]
    | none => []
  if getWidget reg name then
    (tr0 ++
      [Event.constructWidget name, Event.triggerChangeWidget,
       Event.mountWidget, Event.appendErrors] ++
      (match st.description with
       | some _ => [Event.appendDescription]
       | none => []) ++
      [Event.appendHelpText],
     Except.ok { st with widget := some name })
  else
    (tr0, Except.error (JSError.typeError "widget is not a constructor"))

/-- Embedding of `appendTo` (lines 169-179): attach the selector if one
was built, change to the first resolved widget, then attach the wrapper.
`widgets[0]` being `undefined` (the fallback entry) or the list being
empty makes `widgets[0].name` throw. -/
def appendTo (reg : List String) (st : WrapperState) :
    List Event × Except JSError WrapperState :=
  let tr1 : List Event :=
    if st.hasSelector then [Event.appendSelector] else []
  match st.widgets.head? with
  | some (some w) =>
    let res := changeWidget reg st w.name
    match res.2 with
    | Except.ok st' => (tr1 ++ res.1 ++ [Event.appendWrapper], Except.ok st')
    | Except.error e => (tr1 ++ res.1, Except.error e)
  | some none =>
    (tr1, Except.error (JSError.typeError
      "cannot read property name of undefined"))
  | none =>
    (tr1, Except.error (JSError.typeError
      "cannot read property name of undefined"))

/-- Embedding of `self.remove` (lines 186-188): unconditionally calls
`self.widget.remove()`; with no active widget, `self.widget` is
`undefined` and the property access throws. -/
def removeOp (st : WrapperState) : Except JSError (List Event) :=
  match st.widget with
  | some old => Except.ok [Event.removeWidget old]
  | none =>
    Except.error (JSError.typeError
      "cannot read property remove of undefined")

/-- Embedding of `self.setError` (lines 196-198): appends the rendered
message to the errors container (rendering itself is owned by the
external helper `H5PEditor.createError`; the embedding records the
message). -/
def setError (st : WrapperState) (message : String) : WrapperState :=
  { st with errors := st.errors ++ [message] }

/-- Embedding of `self.clearErrors` (lines 205-207): empties the errors
container. -/
def clearErrors (st : WrapperState) : WrapperState :=
  { st with errors := [] }

/-- Embedding of `self.getName` (lines 215-217). -/
def getName (field : Field) : String :=
  field.name

/-- Net change an event makes to the number of live widget instances. -/
def activeDelta : Event → Int
  | Event.constructWidget _ => 1
  | Event.removeWidget _ => -1
  | _ => 0

/-- Number of live widget instances after a trace, starting from
`init` live instances. -/
def activeAfter : Int → List Event → Int
  | n, [] => n
  | n, e :: es => activeAfter (n + activeDelta e) es

/-- Live widget instances held by a wrapper state. -/
def activeInit (st : WrapperState) : Int :=
  match st.widget with
  | some _ => 1
  | none => 0

/-- Helper: to bound the live-instance count after every `take`-prefix
of a trace it is enough to bound it for the prefixes of length at most
`l.length`. -/
lemma activeAfter_take_le (init : Int) (l : List Event)
    (h : ∀ n, n ≤ l.length → activeAfter init (l.take n) ≤ 1) (n : Nat) :
    activeAfter init (l.take n) ≤ 1 := by
  by_cases hn : n ≤ l.length
  · exact h n hn
  · rw [List.take_of_length_le (le_of_lt (lt_of_not_le hn))]
    have := h l.length le_rfl
    rwa [List.take_length] at this

/-- Helper: a fold of `setError` over a list of messages only appends
the messages to the errors container. -/
lemma foldl_setError (st : WrapperState) (msgs : List String) :
    msgs.foldl setError st = { st with errors := st.errors ++ msgs } := by
  induction msgs generalizing st with
  | nil => simp
  | cons m ms ih =>
    simp only [List.foldl_cons, ih, setError, List.append_assoc,
      List.cons_append, List.nil_append]

/-- Helper: the resolved widget list returned by `getValidWidgets` is
never empty. -/
lemma getValidWidgets_ne_nil (reg : List String) (field : Field)
    (dw : WidgetDesc) (ws : List (Option WidgetDesc))
    (h : getValidWidgets reg field dw = Except.ok ws) : ws ≠ [] := by
  unfold getValidWidgets at h
  split at h
  · cases h
    simp
  · cases h
  · simp only at h
    split at h
    · cases h
      simp
    · next he =>
      cases h
      intro hnil
      rw [hnil] at he
      simp at he

/-- C4: if the field descriptor's `widgets` property is present but not
an array, construction throws a `TypeError` synchronously (the check is
in `getValidWidgets`, called from `init`, which runs inside the
constructor). -/
theorem nonArrayWidgetsThrows (reg : List String) (field : Field)
    (dw : WidgetDesc) (h : field.widgets = WidgetsVal.nonArray) :
    construct reg field dw
      = Except.error (JSError.typeError "widgets must be an array") := by
  simp [construct, getValidWidgets, h]

/-- Witness for C4 at a concrete descriptor. -/
theorem nonArrayWidgetsThrowsCase :
    construct []
      ⟨"n", LabelVal.undefined, none, "text", WidgetsVal.nonArray⟩
      ⟨"text", "Text"⟩
      = Except.error (JSError.typeError "widgets must be an array") :=
  nonArrayWidgetsThrows [] _ _ rfl

/-- C6: for every field descriptor the constructor accepts (construction
does not throw), the resolved widget list is non-empty. -/
theorem resolvedWidgetsNonempty (reg : List String) (field : Field)
    (dw : WidgetDesc) (st : WrapperState)
    (h : construct reg field dw = Except.ok st) :
    st.widgets ≠ [] := by
  unfold construct at h
  split at h
  · cases h
  · next ws hws =>
    cases h
    exact getValidWidgets_ne_nil reg field dw ws hws

/-- Witness for C6 at a concrete descriptor. -/
theorem resolvedWidgetsNonemptyCase :
    ({ selfLabel := LabelVal.str "n", widgets := [some ⟨"text", "Text"⟩],
       hasSelector := false, labelElement := some (LabelVal.str "n"),
       description := none, errors := [], widget := none } :
      WrapperState).widgets ≠ [] :=
  resolvedWidgetsNonempty []
    ⟨"n", LabelVal.str "n", none, "text", WidgetsVal.undefined⟩
    ⟨"text", "Text"⟩ _ (by decide)

/-- C8: the widget selector is built at construction precisely when the
resolved candidate list has more than one entry. -/
theorem selectorIffMultipleCandidates (reg : List String) (field : Field)
    (dw : WidgetDesc) (st : WrapperState)
    (h : construct reg field dw = Except.ok st) :
    st.hasSelector = true ↔ st.widgets.length > 1 := by
  unfold construct at h
  split at h
  · cases h
  · cases h
    simp

/-- Witness for C8: two registered candidates give a selector. -/
theorem selectorIffMultipleCandidatesCase :
    ({ selfLabel := LabelVal.str "t",
       widgets := [some ⟨"text", "T"⟩, some ⟨"html", "H"⟩],
       hasSelector := true, labelElement := some (LabelVal.str "t"),
       description := none, errors := [], widget := none } :
      WrapperState).hasSelector = true ↔
    ([some (⟨"text", "T"⟩ : WidgetDesc), some ⟨"html", "H"⟩] :
      List (Option WidgetDesc)).length > 1 :=
  selectorIffMultipleCandidates ["text", "html"]
    ⟨"t", LabelVal.str "t", none, "text",
      WidgetsVal.arr [⟨"text", "T"⟩, ⟨"html", "H"⟩]⟩
    ⟨"text", "Text"⟩ _ (by decide)

/-- C9: `setError` only appends the message to the errors container
(every other component of the state, the active widget included, is
unchanged), and `clearErrors` after any sequence of `setError` calls
leaves an empty errors container, again changing nothing else. -/
theorem errorReportingContract (st : WrapperState) (message : String)
    (msgs : List String) :
    setError st message = { st with errors := st.errors ++ [message] }
    ∧ clearErrors (msgs.foldl setError st) = { st with errors := [] } := by
  refine ⟨rfl, ?_⟩
  rw [foldl_setError]
  rfl

/-- C10: on a freshly constructed wrapper (no `appendTo` or widget
change yet), `remove()` throws: `self.widget` is still `undefined` and
`self.widget.remove()` dereferences it. -/
theorem removeUnmountedThrows (reg : List String) (field : Field)
    (dw : WidgetDesc) (st : WrapperState)
    (h : construct reg field dw = Except.ok st) :
    removeOp st = Except.error (JSError.typeError
      "cannot read property remove of undefined") := by
  unfold construct at h
  split at h
  · cases h
  · cases h
    rfl

/-- Witness for C10 at a concrete descriptor. -/
theorem removeUnmountedThrowsCase :
    removeOp
      { selfLabel := LabelVal.str "n", widgets := [some ⟨"text", "Text"⟩],
        hasSelector := false, labelElement := some (LabelVal.str "n"),
        description := none, errors := [], widget := none }
      = Except.error (JSError.typeError
        "cannot read property remove of undefined") :=
  removeUnmountedThrows []
    ⟨"n", LabelVal.str "n", none, "text", WidgetsVal.undefined⟩
    ⟨"text", "Text"⟩ _ (by decide)

/-- C1: evaluation of the code at the failing input.  With a `widgets`
array whose only entry names an unregistered type, `getValidWidgets`
returns the one-element list holding `self.default` — the never-assigned
instance property, i.e. `undefined` (`none`) — and not the default
widget supplied to the constructor, contradicting the claim and the
source's own comment "There are no valid widgets, add default". -/
theorem unregisteredFallbackEvaluation :
    getValidWidgets ["text"]
      ⟨"title", LabelVal.str "Title", none, "text",
        WidgetsVal.arr [⟨"unregistered", "U"⟩]⟩
      ⟨"text", "Text"⟩
      = Except.ok [none]
    ∧ ([none] : List (Option WidgetDesc))
        ≠ [some (⟨"text", "Text"⟩ : WidgetDesc)] :=
  ⟨by decide, by decide⟩

/-- C2 counterexample: with `label` explicitly `0`, construction indeed
creates no label element, but the public `label` attribute is `0`, not
the descriptor's `name` (`"x"`), because line 25 only falls back to
`name` when `label === undefined`.  The claim's second conjunct is
false at this input. -/
theorem suppressMarkerLabelCounterexample :
    (construct ["text"]
        ⟨"x", LabelVal.zero, none, "text", WidgetsVal.undefined⟩
        ⟨"text", "Text"⟩).map
      (fun st => (st.labelElement, st.selfLabel))
      = Except.ok (none, LabelVal.zero)
    ∧ LabelVal.zero ≠ LabelVal.str "x" :=
  ⟨by decide, by decide⟩

/-- C2 amended: with `label` explicitly the suppress marker `0`, no
label element is created, and the public `label` attribute is the
suppress marker itself (not the descriptor's `name`). -/
theorem suppressMarkerLabelAmended (reg : List String) (field : Field)
    (dw : WidgetDesc) (st : WrapperState)
    (hz : field.label = LabelVal.zero)
    (h : construct reg field dw = Except.ok st) :
    st.labelElement = none ∧ st.selfLabel = LabelVal.zero := by
  unfold construct at h
  split at h
  · cases h
  · cases h
    refine ⟨by simp [hz], by simp [selfLabelOf, hz]⟩

/-- Witness for the amended C2 at a concrete descriptor. -/
theorem suppressMarkerLabelAmendedCase :
    ({ selfLabel := LabelVal.zero, widgets := [some ⟨"text", "Text"⟩],
       hasSelector := false, labelElement := none,
       description := none, errors := [], widget := none } :
      WrapperState).labelElement = none
    ∧ ({ selfLabel := LabelVal.zero, widgets := [some ⟨"text", "Text"⟩],
         hasSelector := false, labelElement := none,
         description := none, errors := [], widget := none } :
        WrapperState).selfLabel = LabelVal.zero :=
  suppressMarkerLabelAmended []
    ⟨"x", LabelVal.zero, none, "text", WidgetsVal.undefined⟩
    ⟨"text", "Text"⟩ _ rfl (by decide)

/-- C7 counterexample: for a `widgets` array whose sole entry is
unregistered, the filtered candidate list is empty, but the resolved
list is the one-element fallback `[self.default]` (= `[none]`), so the
resolved list does not equal the filtered declared-candidate list as
the claim states for every array-valued `widgets`. -/
theorem filteredListCounterexample :
    getValidWidgets ["text"]
      ⟨"t", LabelVal.str "T", none, "text",
        WidgetsVal.arr [⟨"unreg", "U"⟩]⟩
      ⟨"text", "Text"⟩ = Except.ok [none]
    ∧ (Except.ok [none] : Except JSError (List (Option WidgetDesc)))
        ≠ Except.ok ((([⟨"unreg", "U"⟩] : List WidgetDesc).filter
            (fun w => getWidget ["text"] w.name)).map some) :=
  ⟨by decide, by decide⟩

/-- C7 amended: a descriptor without `widgets` resolves to exactly the
one-element list holding the supplied default widget; a descriptor with
an array `widgets` at least one of whose entries resolves in the
registry resolves to exactly the declared candidates filtered to
registered names, preserving order and labels. -/
theorem widgetResolutionAmended (reg : List String) (field : Field)
    (dw : WidgetDesc) :
    (field.widgets = WidgetsVal.undefined →
      getValidWidgets reg field dw = Except.ok [some dw])
    ∧ (∀ ws, field.widgets = WidgetsVal.arr ws →
        ws.filter (fun w => getWidget reg w.name) ≠ [] →
        getValidWidgets reg field dw
          = Except.ok
              ((ws.filter (fun w => getWidget reg w.name)).map some)) := by
  constructor
  · intro h
    simp [getValidWidgets, h]
  · intro ws h hne
    simp only [getValidWidgets, h]
    rw [if_neg]
    simp [hne]

/-- Witness for the amended C7 at concrete descriptors. -/
theorem widgetResolutionAmendedCase :
    getValidWidgets ["text"]
      ⟨"u", LabelVal.str "U", none, "text", WidgetsVal.undefined⟩
      ⟨"text", "Text"⟩ = Except.ok [some ⟨"text", "Text"⟩]
    ∧ getValidWidgets ["text"]
        ⟨"a", LabelVal.str "A", none, "text",
          WidgetsVal.arr [⟨"text", "T"⟩, ⟨"missing", "M"⟩]⟩
        ⟨"text", "Text"⟩
        = Except.ok
            ((([⟨"text", "T"⟩, ⟨"missing", "M"⟩] : List WidgetDesc).filter
              (fun w => getWidget ["text"] w.name)).map some) :=
  ⟨(widgetResolutionAmended ["text"]
      ⟨"u", LabelVal.str "U", none, "text", WidgetsVal.undefined⟩
      ⟨"text", "Text"⟩).1 rfl,
   (widgetResolutionAmended ["text"]
      ⟨"a", LabelVal.str "A", none, "text",
        WidgetsVal.arr [⟨"text", "T"⟩, ⟨"missing", "M"⟩]⟩
      ⟨"text", "Text"⟩).2 _ rfl (by decide)⟩

/-- C3: for a widget change whose target name resolves in the registry
(whether reached from `appendTo` or from the selector's change
handler): the trace first removes the old widget when one is active and
only then constructs the new one; exactly one `changeWidget` event is
triggered; at every point of the trace at most one widget instance is
live; and the resulting state holds exactly the new widget. -/
theorem changeWidgetContract (reg : List String) (st : WrapperState)
    (name : String) (h : getWidget reg name = true) :
    (changeWidget reg st name).1
      = (match st.widget with
         | some old => [Event.removeWidget old]
         | none => []) ++
        [Event.constructWidget name, Event.triggerChangeWidget,
         Event.mountWidget, Event.appendErrors] ++
        (match st.description with
         | some _ => [Event.appendDescription]
         | none => []) ++
        [Event.appendHelpText]
    ∧ (changeWidget reg st name).1.count Event.triggerChangeWidget = 1
    ∧ (∀ n, activeAfter (activeInit st)
        ((changeWidget reg st name).1.take n) ≤ 1)
    ∧ (changeWidget reg st name).2
        = Except.ok { st with widget := some name } := by
  obtain ⟨sl, ws, hs, le, de, er, w⟩ := st
  cases w <;> cases de <;>
    refine ⟨by simp [changeWidget, h],
            by simp [changeWidget, h, List.count_cons],
            fun n => ?_,
            by simp [changeWidget, h]⟩ <;>
  · apply activeAfter_take_le
    intro m hm
    simp only [changeWidget, h, if_true, List.length_append,
      List.length_cons, List.length_nil] at hm
    interval_cases m <;>
      simp [changeWidget, h, activeAfter, activeDelta, activeInit,
        List.take_succ_cons]

/-- Concrete wrapper state used by the C3 witness: a wrapper with an
active "text" widget and a description, about to switch to "html". -/
def exState3 : WrapperState :=
  { selfLabel := LabelVal.str "t",
    widgets := [some ⟨"text", "T"⟩, some ⟨"html", "H"⟩],
    hasSelector := true, labelElement := some (LabelVal.str "t"),
    description := some "d", errors := [], widget := some "text" }

/-- Witness for C3: switching the concrete wrapper from "text" to
"html" removes the old widget first, triggers one `changeWidget` event,
keeps at most one live instance (checked here on the prefix of length
one, right after the removal), and ends with "html" active. -/
theorem changeWidgetContractCase :
    (changeWidget ["text", "html"] exState3 "html").1
      = [Event.removeWidget "text", Event.constructWidget "html",
         Event.triggerChangeWidget, Event.mountWidget, Event.appendErrors,
         Event.appendDescription, Event.appendHelpText]
    ∧ (changeWidget ["text", "html"] exState3 "html").1.count
        Event.triggerChangeWidget = 1
    ∧ activeAfter (activeInit exState3)
        ((changeWidget ["text", "html"] exState3 "html").1.take 1) ≤ 1
    ∧ (changeWidget ["text", "html"] exState3 "html").2
        = Except.ok { exState3 with widget := some "html" } :=
  ⟨(changeWidgetContract ["text", "html"] exState3 "html" rfl).1,
   (changeWidgetContract ["text", "html"] exState3 "html" rfl).2.1,
   (changeWidgetContract ["text", "html"] exState3 "html" rfl).2.2.1 1,
   (changeWidgetContract ["text", "html"] exState3 "html" rfl).2.2.2⟩

/-- C5: on a freshly constructed wrapper whose first resolved candidate
`w` is registered, no widget is active before `appendTo` (construction
and selector building instantiate none), and `appendTo` attaches the
selector first (when one exists), then runs the widget change for the
first candidate's name — construct, trigger, mount, re-attach errors,
description and help text, with no removal since nothing was active —
and attaches the wrapper last; afterwards exactly one widget instance
is active, the one constructed from the first resolved candidate. -/
theorem appendToContract (reg : List String) (field : Field)
    (dw : WidgetDesc) (st : WrapperState) (w : WidgetDesc)
    (hc : construct reg field dw = Except.ok st)
    (hh : st.widgets.head? = some (some w))
    (hr : getWidget reg w.name = true) :
    st.widget = none
    ∧ appendTo reg st
      = ((if st.hasSelector then [Event.appendSelector] else []) ++
         ([Event.constructWidget w.name, Event.triggerChangeWidget,
           Event.mountWidget, Event.appendErrors] ++
          (match st.description with
           | some _ => [Event.appendDescription]
           | none => []) ++
          [Event.appendHelpText]) ++ [Event.appendWrapper],
       Except.ok { st with widget := some w.name }) := by
  unfold construct at hc
  split at hc
  · cases hc
  · cases hc
    refine ⟨rfl, ?_⟩
    simp only at hh
    cases hd : field.description with
    | none => simp [appendTo, changeWidget, hh, hr, hd]
    | some d => simp [appendTo, changeWidget, hh, hr, hd]

/-- Concrete field descriptor used by the C5 witness. -/
def exField5 : Field :=
  ⟨"t", LabelVal.str "T", none, "text",
    WidgetsVal.arr [⟨"text", "T"⟩, ⟨"html", "H"⟩]⟩

/-- Concrete wrapper state used by the C5 witness: the result of
constructing `exField5` against a registry holding both candidates. -/
def exState5 : WrapperState :=
  { selfLabel := LabelVal.str "T",
    widgets := [some ⟨"text", "T"⟩, some ⟨"html", "H"⟩],
    hasSelector := true, labelElement := some (LabelVal.str "T"),
    description := none, errors := [], widget := none }

/-- Witness for C5: mounting the concrete freshly constructed wrapper
attaches the selector, constructs the first candidate ("text"),
triggers one `changeWidget` event, and attaches the wrapper last. -/
theorem appendToContractCase :
    exState5.widget = none
    ∧ appendTo ["text", "html"] exState5
      = ([Event.appendSelector, Event.constructWidget "text",
          Event.triggerChangeWidget, Event.mountWidget, Event.appendErrors,
          Event.appendHelpText, Event.appendWrapper],
         Except.ok { exState5 with widget := some "text" }) :=
  appendToContract ["text", "html"] exField5 ⟨"text", "Text"⟩ exState5
    ⟨"text", "T"⟩ (by decide) (by decide) (by decide)

end H5PEditor
